import Mathlib

/-!
Verification of the reporter module of gatsby-cli
(src/packages/gatsby-cli/src/reporter/index.js).

The development shallowly embeds the error enrichment/validation pipeline
(createRichError, reporter.error, reporter.panicOnBuild) and the activity
tracking state machines (activityTimer, createProgress).  JavaScript objects
with a fixed shape become Lean structures; the arbitrary extra keys an object
may carry become an association list; spread merges are written out field by
field following the source; process exit, uncaught exceptions and pushes to
the rendering backend are made explicit in result types.  The external
collaborators (error definition table, schema validator, rendering backend,
telemetry sink) are parameters, with sample instances modelled from the spec
for concrete evaluation.
-/

namespace GatsbyReporter

/-- A context map handed to an error definition text generator
(JS objects of primitive values, modelled as a string association list). -/
def Ctx : Type := List (String × String)

instance : DecidableEq Ctx := fun a b => List.hasDecEq a b

/-- One parsed stack frame as produced by the stack-trace library
(function name, file, line, column where available). -/
structure StackFrame where
  functionName : Option String
  fileName : String
  lineNumber : Nat
  columnNumber : Nat
deriving DecidableEq

/-- A JavaScript exception value: its message together with the frames the
external stack-trace library would parse out of it. -/
structure JSError where
  message : String
  frames : List StackFrame
deriving DecidableEq

/-- The external stack-trace parser: stackTrace.parse(error).  The library is
an external collaborator, so the frames it yields are carried by the
exception value itself. -/
def stackTraceParse (e : JSError) : List StackFrame := e.frames

/-- ErrorDetails: the partially filled input record of createRichError.
Known fields are explicit; any other key the caller put on the object lives
in `extra` (association-list semantics: first binding for a key wins). -/
structure ErrorDetails where
  id : Option String := none
  text : Option String := none
  context : Option Ctx := none
  error : Option JSError := none
  level : Option String := none
  category : Option String := none
  extra : List (String × String) := []
deriving DecidableEq

/-- An ErrorDefinition from the external error-map: a text generator taking
the (possibly absent) context map, a severity level, a category, and possibly
further fields (`extra`). -/
structure ErrorDefinition where
  text : Option Ctx → String
  level : String
  category : String
  extra : List (String × String) := []

/-- The merged, rich error record built by createRichError. -/
structure RichError where
  id : Option String
  text : String
  context : Option Ctx
  error : Option JSError
  level : String
  category : String
  stack : List StackFrame
  extra : List (String × String)
deriving DecidableEq

/-- JS truthiness of details.id in `details.id && errorMap[details.id]`:
undefined and the empty string are falsy. -/
def truthyId : Option String → Option String
  | none => none
  | some s => if s = "" then none else some s

/-- Line 22: `const result = (details.id && errorMap[details.id]) || defaultError`.
The error map is the external table, passed as a function. -/
def lookupDefinition (errorMap : String → Option ErrorDefinition)
    (defaultError : ErrorDefinition) (id : Option String) : ErrorDefinition :=
  match truthyId id with
  | none => defaultError
  | some i => (errorMap i).getD defaultError

/-- Lines 25-30: the object literal
`{ ...details, ...result, text: get(details, text) || result.text(details.context),
   stack: details.error ? stackTrace.parse(details.error) : [] }`
written out field by field.  The `result` (definition) spread comes second,
so on every key present in both records the definition value wins; the
explicit `text` and `stack` entries come last and win over both.  The caller
fields id/context/error survive because a definition record has no such
keys; any caller-supplied level/category is overridden by the definition. -/
def mergeRichError (defn : ErrorDefinition) (details : ErrorDetails) : RichError :=
  { id := details.id
    context := details.context
    error := details.error
    level := defn.level
    category := defn.category
    text :=
      match details.text with
      | some t => if t = "" then defn.text details.context else t
      | none => defn.text details.context
    stack :=
      match details.error with
      | some e => stackTraceParse e
      | none => []
    extra := defn.extra ++ details.extra }

/-- Output streams of the process.  The diagnostic on validation failure is
emitted with console.log, which writes to the standard output stream (and is
in fact redirected at module load, line 235, to the reporter log channel);
neither is the standard error stream. -/
inductive OutStream where
  | standardOut
  | standardError
deriving DecidableEq

/-- Result of createRichError: either the process exits (with its exit code
and the diagnostic that was printed first), or the merged rich error is
returned. -/
inductive BuildOutcome where
  | exitProcess (code : Nat) (diag : OutStream × String)
  | built (r : RichError)
deriving DecidableEq

/-- Lines 20-40: createRichError.  `validate` is the external Joi schema
validator, returning some message on failure and none on success
(`Joi.validate(richError, errorSchema)` yields `error === null` on success).
On failure the code runs `console.log(..., error)` and `process.exit(1)`;
on success it returns the merged record. -/
def createRichError (errorMap : String → Option ErrorDefinition)
    (defaultError : ErrorDefinition) (validate : RichError → Option String)
    (details : ErrorDetails) : BuildOutcome :=
  let result := lookupDefinition errorMap defaultError details.id
  let richError := mergeRichError result details
  match validate richError with
  | some msg =>
      .exitProcess 1 (OutStream.standardOut, "Failed to validate error " ++ msg)
  | none => .built richError

/-- The argument shapes of reporter.error (lines 86-102).  Two arguments
(message plus exception), a single Error instance, a single plain object, a
single string, or a single value of any other type (number, boolean, ...)
which matches none of the dispatch branches. -/
inductive ErrorArgs where
  | twoArgs (message : String) (e : JSError)
  | oneErrorValue (e : JSError)
  | oneObjectValue (o : ErrorDetails)
  | oneStringValue (s : String)
  | oneOtherValue
deriving DecidableEq

/-- An uncaught JavaScript exception raised while normalizing arguments. -/
inductive JSCrash where
  | typeErrorMessageOfUndefined
deriving DecidableEq

/-- Lines 87-102: normalization of the call shapes into a details record.
In the single-Error branch (line 94) the source assigns
`details.text = error.message`, but `error` is the second formal parameter
and is undefined when exactly one argument was passed, so evaluating
`error.message` throws a TypeError. -/
def normalizeErrorArgs : ErrorArgs → Except JSCrash ErrorDetails
  | .twoArgs message e => .ok { error := some e, text := some message }
  | .oneErrorValue _ => .error .typeErrorMessageOfUndefined
  | .oneObjectValue o => .ok o
  | .oneStringValue s => .ok { text := some s }
  | .oneOtherValue => .ok {}

/-- Outcome of a reporter.error call: the normalization threw, the process
exited inside createRichError, or the call completed, rendering the rich
error via the backend (line 106) and, when an original exception is attached,
also logging its formatted stack (line 110). -/
inductive ErrorCallOutcome where
  | crashed
  | exitedProcess (code : Nat) (diag : OutStream × String)
  | completed (rendered : RichError) (loggedFormattedError : Bool)
deriving DecidableEq

/-- Lines 86-111: reporter.error. -/
def reporterError (errorMap : String → Option ErrorDefinition)
    (defaultError : ErrorDefinition) (validate : RichError → Option String)
    (args : ErrorArgs) : ErrorCallOutcome :=
  match normalizeErrorArgs args with
  | .error _ => .crashed
  | .ok details =>
      match createRichError errorMap defaultError validate details with
      | .exitProcess c d => .exitedProcess c d
      | .built richError => .completed richError richError.error.isSome

/-- Outcome of panicOnBuild: the inner error call threw, the process exited
(either inside the error call, before telemetry, or afterwards in build
mode), or the call returned normally.  Telemetry events recorded by
trackError are listed as (event name, arguments) pairs. -/
inductive PanicOnBuildOutcome where
  | crashed
  | exited (code : Nat) (telemetry : List (String × ErrorArgs))
  | returned (telemetry : List (String × ErrorArgs))
deriving DecidableEq

/-- Lines 78-84: panicOnBuild.  It calls this.error(...args), then
trackError with a BUILD_PANIC event, then exits with status 1 exactly when
process.env.gatsby_executing_command equals the string build.  If the error
call throws or exits, control never reaches trackError. -/
def panicOnBuild (errorMap : String → Option ErrorDefinition)
    (defaultError : ErrorDefinition) (validate : RichError → Option String)
    (env : String → Option String) (args : ErrorArgs) : PanicOnBuildOutcome :=
  match reporterError errorMap defaultError validate args with
  | .crashed => .crashed
  | .exitedProcess c _ => .exited c []
  | .completed _ _ =>
      if env "gatsby_executing_command" = some "build" then
        .exited 1 [("BUILD_PANIC", args)]
      else
        .returned [("BUILD_PANIC", args)]

/-- Events pushed to the rendering backend by an activity handle
(activity.update
 and activity.done of reporters createActivity). -/
inductive ActivityEvent where
  | updateStartTime
  | updateStatus (s : String)
  | updateCurrent (n : Nat)
  | updateTotal (n : Nat)
  | doneEv
deriving DecidableEq

/-- The reporter-side mutable state of a progress tracker (lines 184-185):
the closure variables hasStarted, current, and the total parameter. -/
structure ProgressState where
  hasStarted : Bool
  current : Nat
  total : Nat
deriving DecidableEq

/-- Lines 184-191: initial closure state of createProgress(name, total, start). -/
def initProgress (total : Nat) (start : Nat := 0) : ProgressState :=
  { hasStarted := false, current := start, total := total }

/-- Operations on a progress handle (lines 193-225): start(), setStatus(s),
tick(), done(), and assignment to the total property. -/
inductive ProgressOp where
  | start
  | setStatus (s : String)
  | tick
  | done
  | setTotal (v : Nat)
deriving DecidableEq

/-- One method call on a progress handle: the new closure state and the
events pushed to the rendering backend.  start() returns early when
hasStarted is set; tick() runs activity.update with the pre-incremented
counter; done() finishes the span and calls activity.done but touches no
closure variable; the total setter stores and pushes the new total. -/
def progressStep (s : ProgressState) : ProgressOp → ProgressState × List ActivityEvent
  | .start =>
      if s.hasStarted then (s, [])
      else ({ s with hasStarted := true }, [.updateStartTime])
  | .setStatus st => (s, [.updateStatus st])
  | .tick => ({ s with current := s.current + 1 }, [.updateCurrent (s.current + 1)])
  | .done => (s, [.doneEv])
  | .setTotal v => ({ s with total := v }, [.updateTotal v])

/-- Run a sequence of progress-handle calls, accumulating backend events. -/
def runProgress (s : ProgressState) : List ProgressOp → ProgressState × List ActivityEvent
  | [] => (s, [])
  | op :: ops =>
      let (s1, evs1) := progressStep s op
      let (s2, evs2) := runProgress s1 ops
      (s2, evs1 ++ evs2)

/-- Operations on a spinner handle from activityTimer (lines 147-163):
start(), setStatus(s), end(). -/
inductive SpinnerOp where
  | start
  | setStatus (s : String)
  | endOp
deriving DecidableEq

/-- One method call on a spinner handle.  The spinner closure keeps no state
at all: every call unconditionally pushes to the rendering backend (start()
re-stamps the start time on every call). -/
def spinnerStep : SpinnerOp → List ActivityEvent
  | .start => [.updateStartTime]
  | .setStatus st => [.updateStatus st]
  | .endOp => [.doneEv]

/-- Modelled from the spec: the default error definition of the external
error-map module (not under src/) — a definition with a severity level, a
category and a text generator returning display text. -/
def specDefaultError : ErrorDefinition :=
  { text := fun _ => "There was an unhandled error and we could not retrieve more information."
    level := "ERROR"
    category := "UNKNOWN" }

/-- Modelled from the spec: a known entry of the external error definition
table, keyed by an identifier, including an extra documentation field. -/
def specErrorMap : String → Option ErrorDefinition := fun i =>
  if i = "95312" then
    some { text := fun _ => "Object is not available in browser context."
           level := "ERROR"
           category := "USER"
           extra := [("docsUrl", "https://gatsby.dev/debug-html")] }
  else none

/-- Modelled from the spec: the external error schema validator — the merged
record must have a non-empty text string; on failure a validation message is
produced, on success none. -/
def specValidate : RichError → Option String := fun r =>
  if r.text = "" then some "child text fails because text is not allowed to be empty"
  else none

/-- A sample exception value used for concrete evaluation. -/
def sampleError : JSError :=
  { message := "boom"
    frames := [{ functionName := some "onCreatePage"
                 fileName := "gatsby-node.js"
                 lineNumber := 12
                 columnNumber := 3 }] }

/-- Association-list lookup with JS object semantics: the binding that was
spread last is listed first, so the first match wins. -/
def lookupKey (k : String) : List (String × String) → Option String
  | [] => none
  | (k2, v) :: rest => if k = k2 then some v else lookupKey k rest

/-- A schema validator under which the given record fails validation
(used to exercise the failure branch of createRichError). -/
def alwaysFailValidate : RichError → Option String := fun _ => some "fail"

/-- A process environment in which gatsby_executing_command is build. -/
def buildEnv : String → Option String := fun k =>
  if k = "gatsby_executing_command" then some "build" else none

/-- A process environment in which gatsby_executing_command is develop. -/
def developEnv : String → Option String := fun k =>
  if k = "gatsby_executing_command" then some "develop" else none

/-- Splitting an association-list lookup across an append: the left list is
consulted first, the right one only when the key is absent on the left. -/
theorem lookupKey_append (k : String) (a b : List (String × String)) :
    lookupKey k (a ++ b) =
      match lookupKey k a with
      | some v => some v
      | none => lookupKey k b := by
  induction a with
  | nil => rfl
  | cons p rest ih =>
    obtain ⟨k2, v2⟩ := p
    by_cases hk : k = k2
    · simp [lookupKey, hk]
    · simp [lookupKey, hk, ih]

/-- When the merged record passes validation, createRichError returns it. -/
theorem createRichError_eq_built (errorMap : String → Option ErrorDefinition)
    (dflt : ErrorDefinition) (validate : RichError → Option String)
    (details : ErrorDetails)
    (h : validate (mergeRichError (lookupDefinition errorMap dflt details.id) details) = none) :
    createRichError errorMap dflt validate details =
      .built (mergeRichError (lookupDefinition errorMap dflt details.id) details) := by
  simp only [createRichError]
  rw [h]

/-- When the merged record fails validation, createRichError exits with
status 1 after printing the diagnostic with console.log. -/
theorem createRichError_eq_exit (errorMap : String → Option ErrorDefinition)
    (dflt : ErrorDefinition) (validate : RichError → Option String)
    (details : ErrorDetails) (msg : String)
    (h : validate (mergeRichError (lookupDefinition errorMap dflt details.id) details) = some msg) :
    createRichError errorMap dflt validate details =
      .exitProcess 1 (OutStream.standardOut, "Failed to validate error " ++ msg) := by
  simp only [createRichError]
  rw [h]

/-- Claim C1 (code bug): calling reporter.error with the single Error value
sampleError (message boom) crashes with a TypeError, because line 96 reads
the message field of the undefined second parameter, while the two-argument
call error(boom, sampleError) completes normally and produces the merged
rich error.  The one-exception-object call shape therefore never takes its
text from the message field of the exception, and the two call shapes are
not equivalent. -/
theorem c1_one_error_shape_crashes :
    reporterError specErrorMap specDefaultError specValidate
        (.oneErrorValue sampleError) = .crashed ∧
    reporterError specErrorMap specDefaultError specValidate
        (.twoArgs "boom" sampleError) =
      .completed
        (mergeRichError specDefaultError
          { error := some sampleError, text := some "boom" }) true ∧
    ErrorCallOutcome.completed
        (mergeRichError specDefaultError
          { error := some sampleError, text := some "boom" }) true ≠
      ErrorCallOutcome.crashed := by
  refine ⟨rfl, ?_, by decide⟩
  have h : specValidate
      (mergeRichError
        (lookupDefinition specErrorMap specDefaultError
          (ErrorDetails.id { error := some sampleError, text := some "boom" }))
        { error := some sampleError, text := some "boom" }) = none := rfl
  simp only [reporterError, normalizeErrorArgs,
    createRichError_eq_built specErrorMap specDefaultError specValidate
      { error := some sampleError, text := some "boom" } h]
  rfl

/-- Claim C6 (confirmed): starting from createProgress with total 10 and
default start 0, four tick calls leave current at 4 and total at 10; a
subsequent assignment of 20 to total leaves current at 4 and sets total to
20, with no clamping and no reset; and in general a tick from any state
increments current by exactly one and pushes the new count to the rendering
backend. -/
theorem c6_progress_tick_counts :
    (runProgress (initProgress 10) [.tick, .tick, .tick, .tick]).1.current = 4 ∧
    (runProgress (initProgress 10) [.tick, .tick, .tick, .tick]).1.total = 10 ∧
    (runProgress (initProgress 10)
        [.tick, .tick, .tick, .tick, .setTotal 20]).1.current = 4 ∧
    (runProgress (initProgress 10)
        [.tick, .tick, .tick, .tick, .setTotal 20]).1.total = 20 ∧
    (∀ s : ProgressState,
      progressStep s .tick =
        ({ s with current := s.current + 1 }, [.updateCurrent (s.current + 1)])) := by
  exact ⟨rfl, rfl, rfl, rfl, fun s => rfl⟩

/-- Claim C7 (confirmed): start on a progress tracker is idempotent — when
the tracker has already started, a further start call leaves the closure
state (current, total, hasStarted) unchanged and pushes nothing to the
rendering backend; only a first start call stamps the start time and pushes
it. -/
theorem c7_progress_start_idempotent :
    (∀ s : ProgressState, s.hasStarted = true → progressStep s .start = (s, [])) ∧
    (∀ s : ProgressState, s.hasStarted = false →
      progressStep s .start = ({ s with hasStarted := true }, [.updateStartTime])) := by
  constructor
  · intro s h
    simp [progressStep, h]
  · intro s h
    simp [progressStep, h]

/-- Witness for C7: concretely, on a tracker with total 10, a second start
call right after the first returns the state unchanged with no backend
event, and the first start stamps the start time. -/
theorem c7_progress_start_idempotent_witness :
    progressStep ((progressStep (initProgress 10) .start).1) .start =
      ((progressStep (initProgress 10) .start).1, []) ∧
    progressStep (initProgress 10) .start =
      ({ hasStarted := true, current := 0, total := 10 }, [.updateStartTime]) := by
  exact ⟨c7_progress_start_idempotent.1 _ rfl,
    c7_progress_start_idempotent.2 (initProgress 10) rfl⟩

/-- Claim C3 (counterexample): the claim that after done every mutating call
is guarded or a no-op is false.  Concretely, on a fresh progress tracker
with total 10, after done a tick call changes the tracker state (current
goes from 0 to 1) and pushes an update event to the rendering backend. -/
theorem c3_counterexample :
    (progressStep ((progressStep (initProgress 10) .done).1) .tick).1.current = 1 ∧
    (progressStep ((progressStep (initProgress 10) .done).1) .tick).1 ≠
      (progressStep (initProgress 10) .done).1 ∧
    (progressStep ((progressStep (initProgress 10) .done).1) .tick).2 ≠ [] := by
  exact ⟨rfl, by decide, by decide⟩

/-- Claim C3 (amended): there is no finished-state guard.  done finishes the
span and notifies the backend but changes no closure state, and afterwards
tick still increments current and pushes the new count, a total assignment
still stores and pushes the new total, and setStatus still pushes; on a
spinner (which keeps no state at all) start and setStatus after end still
push updates.  The only guarded call is a progress start after an earlier
start. -/
theorem c3_no_finished_guard :
    (∀ s : ProgressState, progressStep s .done = (s, [.doneEv])) ∧
    (∀ s : ProgressState,
      progressStep (progressStep s .done).1 .tick =
        ({ s with current := s.current + 1 }, [.updateCurrent (s.current + 1)])) ∧
    (∀ (s : ProgressState) (v : Nat),
      progressStep (progressStep s .done).1 (.setTotal v) =
        ({ s with total := v }, [.updateTotal v])) ∧
    (∀ (s : ProgressState) (st : String),
      progressStep (progressStep s .done).1 (.setStatus st) =
        (s, [.updateStatus st])) ∧
    spinnerStep .start = [.updateStartTime] ∧
    (∀ st : String, spinnerStep (.setStatus st) = [.updateStatus st]) := by
  exact ⟨fun s => rfl, fun s => rfl, fun s v => rfl, fun s st => rfl, rfl,
    fun st => rfl⟩

/-- Claim C2 (counterexample): the claim that on a field present in both the
caller-supplied details and the definition the caller-supplied value wins is
false.  Concretely, for the known identifier 95312 whose definition carries
a docsUrl field, a caller-supplied docsUrl is overridden by the definition
value in the merged rich error, because the source spreads the details
first and the looked-up definition second. -/
theorem c2_counterexample :
    lookupKey "docsUrl"
        (mergeRichError (lookupDefinition specErrorMap specDefaultError (some "95312"))
          { id := some "95312", extra := [("docsUrl", "from-caller")] }).extra =
      some "https://gatsby.dev/debug-html" ∧
    lookupKey "docsUrl"
        (mergeRichError (lookupDefinition specErrorMap specDefaultError (some "95312"))
          { id := some "95312", extra := [("docsUrl", "from-caller")] }).extra ≠
      some "from-caller" := by
  exact ⟨rfl, by decide⟩

/-- Claim C2 (amended): the merge spreads the caller-supplied details first
and the looked-up definition second, so on every field present in both the
definition value wins.  Caller-supplied identifier, context and originating
exception survive (a definition record has no such fields); severity and
category always come from the definition; text is the caller-supplied text
when it is present and non-empty and otherwise the definition text
generator applied to the context; any other key is taken from the
definition when the definition binds it and from the details otherwise. -/
theorem c2_merge_semantics (defn : ErrorDefinition) (details : ErrorDetails) :
    (mergeRichError defn details).id = details.id ∧
    (mergeRichError defn details).context = details.context ∧
    (mergeRichError defn details).error = details.error ∧
    (mergeRichError defn details).level = defn.level ∧
    (mergeRichError defn details).category = defn.category ∧
    (∀ t, details.text = some t → t ≠ "" → (mergeRichError defn details).text = t) ∧
    ((details.text = none ∨ details.text = some "") →
      (mergeRichError defn details).text = defn.text details.context) ∧
    (∀ k, lookupKey k (mergeRichError defn details).extra =
      match lookupKey k defn.extra with
      | some v => some v
      | none => lookupKey k details.extra) := by
  refine ⟨rfl, rfl, rfl, rfl, rfl, ?_, ?_, ?_⟩
  · intro t ht hne
    simp [mergeRichError, ht, hne]
  · rintro (ht | ht) <;> simp [mergeRichError, ht]
  · intro k
    exact lookupKey_append k defn.extra details.extra

/-- Witness for C2 (amended): at the concrete definition for identifier
95312 and details carrying a context, a conflicting docsUrl and no text, the
identifier and context survive, severity comes from the definition, the text
is generated, and the docsUrl conflict resolves to the definition value. -/
theorem c2_merge_semantics_witness :
    (mergeRichError (lookupDefinition specErrorMap specDefaultError (some "95312"))
        { id := some "95312", context := some [("pagePath", "/about/")],
          extra := [("docsUrl", "from-caller")] }).id = some "95312" ∧
    (mergeRichError (lookupDefinition specErrorMap specDefaultError (some "95312"))
        { id := some "95312", context := some [("pagePath", "/about/")],
          extra := [("docsUrl", "from-caller")] }).level = "ERROR" ∧
    (mergeRichError (lookupDefinition specErrorMap specDefaultError (some "95312"))
        { id := some "95312", context := some [("pagePath", "/about/")],
          extra := [("docsUrl", "from-caller")] }).text =
      "Object is not available in browser context." ∧
    lookupKey "docsUrl"
        (mergeRichError (lookupDefinition specErrorMap specDefaultError (some "95312"))
          { id := some "95312", context := some [("pagePath", "/about/")],
            extra := [("docsUrl", "from-caller")] }).extra =
      some "https://gatsby.dev/debug-html" := by
  refine ⟨(c2_merge_semantics _ _).1, (c2_merge_semantics _ _).2.2.2.1,
    ?_, ?_⟩
  · exact (c2_merge_semantics
      (lookupDefinition specErrorMap specDefaultError (some "95312"))
      { id := some "95312", context := some [("pagePath", "/about/")],
        extra := [("docsUrl", "from-caller")] }).2.2.2.2.2.2.1 (Or.inl rfl)
  · exact ((c2_merge_semantics
      (lookupDefinition specErrorMap specDefaultError (some "95312"))
      { id := some "95312", context := some [("pagePath", "/about/")],
        extra := [("docsUrl", "from-caller")] }).2.2.2.2.2.2.2 "docsUrl").trans
      (by decide)

/-- Claim C4 (counterexample): the claim that the validation-failure
diagnostic goes to the standard error output is false.  Concretely, under a
validator rejecting the merged record, createRichError exits with status 1
after printing the diagnostic with console.log on the standard output
stream (redirected at module load to the reporter log channel), which is
not the standard error stream. -/
theorem c4_counterexample :
    createRichError specErrorMap specDefaultError alwaysFailValidate {} =
      .exitProcess 1 (OutStream.standardOut, "Failed to validate error fail") ∧
    OutStream.standardOut ≠ OutStream.standardError := by
  exact ⟨rfl, by decide⟩

/-- Claim C4 (amended): for every details record whose merged rich error
fails schema validation, createRichError prints a diagnostic with
console.log — on the standard output stream (routed to the reporter log
channel), not standard error — and terminates the process with status 1;
for every details record that passes validation it returns the merged rich
error without terminating. -/
theorem c4_validation_exit (errorMap : String → Option ErrorDefinition)
    (dflt : ErrorDefinition) (validate : RichError → Option String)
    (details : ErrorDetails) :
    (∀ msg,
      validate (mergeRichError (lookupDefinition errorMap dflt details.id) details) =
          some msg →
        createRichError errorMap dflt validate details =
          .exitProcess 1 (OutStream.standardOut, "Failed to validate error " ++ msg)) ∧
    (validate (mergeRichError (lookupDefinition errorMap dflt details.id) details) =
        none →
      createRichError errorMap dflt validate details =
        .built (mergeRichError (lookupDefinition errorMap dflt details.id) details)) := by
  constructor
  · intro msg h
    exact createRichError_eq_exit errorMap dflt validate details msg h
  · intro h
    exact createRichError_eq_built errorMap dflt validate details h

/-- Witness for C4 (amended): under the always-failing validator the build
of an empty details record exits with status 1 and the console.log
diagnostic, and under the spec schema validator the build of a record with
text t returns the merged rich error. -/
theorem c4_validation_exit_witness :
    createRichError specErrorMap specDefaultError alwaysFailValidate
        { text := some "t" } =
      .exitProcess 1 (OutStream.standardOut, "Failed to validate error fail") ∧
    createRichError specErrorMap specDefaultError specValidate
        { text := some "t" } =
      .built (mergeRichError specDefaultError { text := some "t" }) := by
  exact ⟨(c4_validation_exit specErrorMap specDefaultError alwaysFailValidate
      { text := some "t" }).1 "fail" rfl,
    (c4_validation_exit specErrorMap specDefaultError specValidate
      { text := some "t" }).2 rfl⟩

/-- Claim C5 (confirmed): panicOnBuild first behaves as error on its
arguments; whenever that error call completes normally, panicOnBuild
records exactly one BUILD_PANIC telemetry event for the arguments and then
terminates the process with status 1 exactly when the ambient
gatsby_executing_command environment flag equals build, and in every other
execution mode it returns normally with the telemetry recorded and the
process continues. -/
theorem c5_panicOnBuild_build_mode (errorMap : String → Option ErrorDefinition)
    (dflt : ErrorDefinition) (validate : RichError → Option String)
    (env : String → Option String) (args : ErrorArgs)
    (h : ∃ r b, reporterError errorMap dflt validate args = .completed r b) :
    (env "gatsby_executing_command" = some "build" →
      panicOnBuild errorMap dflt validate env args =
        .exited 1 [("BUILD_PANIC", args)]) ∧
    (env "gatsby_executing_command" ≠ some "build" →
      panicOnBuild errorMap dflt validate env args =
        .returned [("BUILD_PANIC", args)]) := by
  obtain ⟨r, b, hr⟩ := h
  constructor
  · intro hb
    simp [panicOnBuild, hr, hb]
  · intro hb
    simp [panicOnBuild, hr, hb]

/-- Witness for C5: for the single-string call panicOnBuild(x), under the
build environment the process exits with status 1 after recording the
BUILD_PANIC telemetry event, and under the develop environment the call
returns normally with the same telemetry recorded. -/
theorem c5_panicOnBuild_build_mode_witness :
    panicOnBuild specErrorMap specDefaultError specValidate buildEnv
        (.oneStringValue "x") = .exited 1 [("BUILD_PANIC", .oneStringValue "x")] ∧
    panicOnBuild specErrorMap specDefaultError specValidate developEnv
        (.oneStringValue "x") = .returned [("BUILD_PANIC", .oneStringValue "x")] := by
  exact ⟨(c5_panicOnBuild_build_mode specErrorMap specDefaultError specValidate
      buildEnv (.oneStringValue "x") ⟨_, _, rfl⟩).1 rfl,
    (c5_panicOnBuild_build_mode specErrorMap specDefaultError specValidate
      developEnv (.oneStringValue "x") ⟨_, _, rfl⟩).2 (by decide)⟩

/-- Claim C8 (confirmed): the text of the merged rich error equals the
caller-supplied text verbatim when that text is present and non-empty, and
otherwise equals the definition text generator applied to the context of
the details; consequently, whenever the generator only returns non-empty
strings (as the spec requires of the external error-map), the resulting
text is a non-empty string. -/
theorem c8_text_resolution (defn : ErrorDefinition) (details : ErrorDetails) :
    (∀ t, details.text = some t → t ≠ "" → (mergeRichError defn details).text = t) ∧
    ((details.text = none ∨ details.text = some "") →
      (mergeRichError defn details).text = defn.text details.context) ∧
    ((∀ c, defn.text c ≠ "") → (mergeRichError defn details).text ≠ "") := by
  refine ⟨?_, ?_, ?_⟩
  · intro t ht hne
    simp [mergeRichError, ht, hne]
  · rintro (ht | ht) <;> simp [mergeRichError, ht]
  · intro hgen
    cases ht : details.text with
    | none => simpa [mergeRichError, ht] using hgen details.context
    | some t =>
      by_cases he : t = ""
      · simpa [mergeRichError, ht, he] using hgen details.context
      · simp [mergeRichError, ht, he]

/-- Witness for C8: with the default definition, caller-supplied text
custom text is used verbatim, an absent text falls back to the generated
text, and the generated text is non-empty. -/
theorem c8_text_resolution_witness :
    (mergeRichError specDefaultError { text := some "custom text" }).text =
      "custom text" ∧
    (mergeRichError specDefaultError {}).text = specDefaultError.text none ∧
    (mergeRichError specDefaultError {}).text ≠ "" := by
  refine ⟨(c8_text_resolution specDefaultError { text := some "custom text" }).1
      "custom text" rfl (by decide),
    (c8_text_resolution specDefaultError {}).2.1 (Or.inl rfl),
    (c8_text_resolution specDefaultError {}).2.2 ?_⟩
  intro c
  show "There was an unhandled error and we could not retrieve more information." ≠ ""
  decide

/-- Claim C9 (confirmed): whenever the identifier of the details is missing
(or empty, which the JS truthiness test treats the same) or present but not
bound in the error definition table, the lookup yields the default
definition, and in all such cases alike the merged rich error carries the
severity level and category of the default definition. -/
theorem c9_unknown_id_default (errorMap : String → Option ErrorDefinition)
    (dflt : ErrorDefinition) (details : ErrorDetails)
    (h : ∀ i, truthyId details.id = some i → errorMap i = none) :
    lookupDefinition errorMap dflt details.id = dflt ∧
    (mergeRichError (lookupDefinition errorMap dflt details.id) details).level =
      dflt.level ∧
    (mergeRichError (lookupDefinition errorMap dflt details.id) details).category =
      dflt.category := by
  have hl : lookupDefinition errorMap dflt details.id = dflt := by
    unfold lookupDefinition
    cases hid : truthyId details.id with
    | none => rfl
    | some i => simp [h i hid]
  refine ⟨hl, ?_, ?_⟩ <;> (rw [hl]; rfl)

/-- Witness for C9: with the spec error map, a missing identifier and the
unknown identifier UNKNOWN_CODE both fall back to the default definition,
and the merged record for the unknown identifier carries the default
severity ERROR and category UNKNOWN. -/
theorem c9_unknown_id_default_witness :
    lookupDefinition specErrorMap specDefaultError
        (ErrorDetails.id {}) = specDefaultError ∧
    lookupDefinition specErrorMap specDefaultError
        (ErrorDetails.id { id := some "UNKNOWN_CODE" }) = specDefaultError ∧
    (mergeRichError
        (lookupDefinition specErrorMap specDefaultError
          (ErrorDetails.id { id := some "UNKNOWN_CODE" }))
        { id := some "UNKNOWN_CODE" }).level = "ERROR" ∧
    (mergeRichError
        (lookupDefinition specErrorMap specDefaultError
          (ErrorDetails.id { id := some "UNKNOWN_CODE" }))
        { id := some "UNKNOWN_CODE" }).category = "UNKNOWN" := by
  have hmissing : ∀ i, truthyId (ErrorDetails.id {}) = some i →
      specErrorMap i = none := by
    intro i hi
    simp [truthyId] at hi
  have hunknown : ∀ i,
      truthyId (ErrorDetails.id { id := some "UNKNOWN_CODE" }) = some i →
      specErrorMap i = none := by
    intro i hi
    simp only [truthyId] at hi
    split at hi
    · exact absurd hi (by simp)
    · cases hi
      simp [specErrorMap]
  exact ⟨(c9_unknown_id_default specErrorMap specDefaultError {} hmissing).1,
    (c9_unknown_id_default specErrorMap specDefaultError
      { id := some "UNKNOWN_CODE" } hunknown).1,
    (c9_unknown_id_default specErrorMap specDefaultError
      { id := some "UNKNOWN_CODE" } hunknown).2.1,
    (c9_unknown_id_default specErrorMap specDefaultError
      { id := some "UNKNOWN_CODE" } hunknown).2.2⟩

/-- Claim C10 (confirmed): a single argument matching none of the four
dispatch branches of reporter.error (not an Error instance, not an object,
not a string) normalizes to the empty details record, and — provided the
resulting default-definition record passes schema validation, as the
spec-modelled schema guarantees — the call completes: it builds the rich
error from the default definition with empty stack and generated text,
renders it via the backend, and logs no formatted exception, rather than
failing or skipping the call. -/
theorem c10_unmatched_single_arg (errorMap : String → Option ErrorDefinition)
    (dflt : ErrorDefinition) (validate : RichError → Option String)
    (h : validate (mergeRichError dflt ({} : ErrorDetails)) = none) :
    normalizeErrorArgs .oneOtherValue = .ok ({} : ErrorDetails) ∧
    reporterError errorMap dflt validate .oneOtherValue =
      .completed (mergeRichError dflt ({} : ErrorDetails)) false ∧
    (mergeRichError dflt ({} : ErrorDetails)).stack = [] ∧
    (mergeRichError dflt ({} : ErrorDetails)).text = dflt.text none := by
  refine ⟨rfl, ?_, rfl, rfl⟩
  have h2 : validate
      (mergeRichError
        (lookupDefinition errorMap dflt (ErrorDetails.id ({} : ErrorDetails)))
        ({} : ErrorDetails)) = none := h
  simp only [reporterError, normalizeErrorArgs,
    createRichError_eq_built errorMap dflt validate ({} : ErrorDetails) h2]
  rfl

/-- Witness for C10: concretely, under the spec schema validator and the
default definition, the unmatched-single-argument call completes with the
default-generated text and an empty stack. -/
theorem c10_unmatched_single_arg_witness :
    reporterError specErrorMap specDefaultError specValidate .oneOtherValue =
      .completed (mergeRichError specDefaultError ({} : ErrorDetails)) false ∧
    (mergeRichError specDefaultError ({} : ErrorDetails)).stack = [] := by
  exact ⟨(c10_unmatched_single_arg specErrorMap specDefaultError specValidate
      rfl).2.1,
    (c10_unmatched_single_arg specErrorMap specDefaultError specValidate
      rfl).2.2.1⟩

end GatsbyReporter
